import Mathlib

/-
Verification of the FunctionAny polymorphic callable container
(src/FunctionAny_Test/FunctionAny.h) against its specification.

The embedding is a shallow model of the container semantics:
- C++ types that can appear in a signature are modelled by the inductive
  `Ty`; the dummy structs VOID and NO_CALL from FunctionAny.h are the
  constructors `Ty.VOIDt` and `Ty.NO_CALLt`.
- A signature RT(Args...) is the structure `Sig`.
- Runtime values are `Value`; side effects of wrapped callables are
  modelled by an explicit store `Store : Nat -> Int`, and a reference to
  an object is the location value `Value.locV`.
- The single-signature adapter Function<Sig> (declared in Function.h,
  which is not part of src/) is modelled from the spec as `Function`.
- FunctionAny<Sigs...> is the structure `FunctionAny`: the std::variant
  member `func` over Function<S> for S in SIGS_UNIQUE always has exactly
  one active alternative, so it is modelled by the active branch `fn`
  (its signature `fn.sig` names the active alternative).
- Template-argument packs (Sigs..., Args...) are value-level lists; the
  static asserts of the header are build-time preconditions and appear
  as hypotheses of the theorems.
- Implicit convertibility between C++ types is a parameter
  `conv : Ty -> Ty -> Bool` of every operation that matches arguments.
-/

namespace FA

/-- A C++ type as far as the signature algebra observes it. `VOIDt` and
`NO_CALLt` model the dummy structs VOID and NO_CALL of FunctionAny.h;
`ref` and `ptr` model lvalue references and pointers. -/
inductive Ty : Type where
  | int : Ty
  | char : Ty
  | void : Ty
  | VOIDt : Ty
  | NO_CALLt : Ty
  | ref : Ty → Ty
  | ptr : Ty → Ty
deriving DecidableEq, Repr

/-- True exactly on lvalue reference types: std::is_lvalue_reference_v. -/
def Ty.isLRef : Ty → Bool
  | Ty.ref _ => true
  | _ => false

/-- A type-erased function signature RT(Args...). -/
structure Sig where
  rt : Ty
  args : List Ty
deriving DecidableEq, Repr

/-- TO_RETURN_TYPE from FunctionAny.h line 22: lvalue references become
pointers (add_pointer_t of remove_reference_t), void becomes VOID and
every other type is kept. -/
def TO_RETURN_TYPE : Ty → Ty
  | Ty.ref t => Ty.ptr t
  | Ty.void => Ty.VOIDt
  | t => t

/-- Modelled from the spec: the `unique` operation of the t_list
type-level list library (TypeList header, not under src/). Section 4.1:
removes structurally equal duplicates, keeping the first occurrence. -/
def dedupList {α : Type} [DecidableEq α] : List α → List α
  | [] => []
  | x :: xs => x :: (dedupList xs).filter (fun y => y != x)

/-- Modelled from the spec: the `is_subset` test of the t_list library.
Section 4.1: true iff every element of the first list occurs in the
second. -/
def is_subset {α : Type} [DecidableEq α] (a b : List α) : Bool :=
  a.all (fun x => b.contains x)

/-- SIGS_UNIQUE from FunctionAny.h line 24: the deduplicated declared
signature list. -/
def SIGS_UNIQUE (sigs : List Sig) : List Sig :=
  dedupList sigs

/-- ARGS_UNIQUE from FunctionAny.h line 29: the deduplicated list of
parameter lists of the deduplicated signatures. -/
def ARGS_UNIQUE (sigs : List Sig) : List (List Ty) :=
  dedupList ((SIGS_UNIQUE sigs).map Sig.args)

/-- RTS_UNIQUE from FunctionAny.h line 28: return types through
TO_RETURN_TYPE, with NO_CALL appended, deduplicated. -/
def RTS_UNIQUE (sigs : List Sig) : List Ty :=
  dedupList ((SIGS_UNIQUE sigs).map (fun s => TO_RETURN_TYPE s.rt) ++ [Ty.NO_CALLt])

/-- Locations of objects that wrapped callables can reference. -/
abbrev Loc := Nat

/-- The external mutable state the wrapped callables act on. -/
abbrev Store := Loc → Int

/-- Point update of the store: the effect of writing through a pointer
or reference. -/
def Store.write (σ : Store) (ℓ : Loc) (z : Int) : Store :=
  fun n => if n = ℓ then z else σ n

/-- A runtime value: an integer, the value of a unit-like struct, or a
location (the model of a pointer and of an lvalue reference). -/
inductive Value : Type where
  | intV : Int → Value
  | unitV : Value
  | locV : Loc → Value
deriving DecidableEq, Repr

/-- One member of the RT_VARIANT result union (FunctionAny.h line 30):
either a value member of a concrete type, the VOID sentinel member or
the NO_CALL sentinel member. -/
inductive RTVal : Type where
  | mem : Ty → Value → RTVal
  | VOIDv : RTVal
  | NO_CALLv : RTVal
deriving DecidableEq, Repr

/-- Modelled from the spec: the Callable Adapter Function<Sig> of
Function.h, which is not under src/. Section 4.2: a single-signature
box that either holds a call target or is empty. A call target maps the
argument values and the current store to a returned value and a new
store; for a signature returning an lvalue reference the returned value
is the location of the referenced object. -/
structure Function where
  sig : Sig
  target : Option (List Value → Store → Value × Store)

/-- Modelled from the spec: boolean validity of the adapter, true iff it
currently holds a target (section 4.2). -/
def Function.toBool (f : Function) : Bool :=
  f.target.isSome

/-- Modelled from the spec: adapter invocation. Section 3 states the
invocation of an empty adapter is undefined/erroring, which the model
renders as `none`; a held target is applied to the arguments and the
store. -/
def Function.call (f : Function) (args : List Value) (σ : Store) : Option (Value × Store) :=
  match f.target with
  | none => none
  | some t => some (t args σ)

/-- Modelled from the spec: f_traits::sig_convertible_args_v of
FunctionTraits.h (not under src/). Sections 4.4 and 9: the argument
list fits the signature iff the argument count matches exactly and each
argument type is convertible to the parameter type at its position. -/
def sig_convertible_args (conv : Ty → Ty → Bool) (s : Sig) (argTys : List Ty) : Bool :=
  decide (argTys.length = s.args.length) &&
    (argTys.zip s.args).all (fun p => conv p.1 p.2)

/-- Modelled from the spec: the contains_convertible test used by the
static assert of operator() (FunctionAny.h line 142): some parameter
list in the set is an arity-exact, positionally convertible target for
the argument types. -/
def contains_convertible (conv : Ty → Ty → Bool) (paramLists : List (List Ty)) (argTys : List Ty) : Bool :=
  paramLists.any (fun ps =>
    decide (argTys.length = ps.length) && (argTys.zip ps).all (fun p => conv p.1 p.2))

/-- The FunctionAny<Sigs...> container: `sigs` is the declared signature
pack and `fn` is the active alternative of the std::variant member
`func` (FunctionAny.h line 171). The variant always has exactly one
active alternative, which `fn.sig` names; states built by the modelled
constructors keep `fn.sig` inside SIGS_UNIQUE sigs. -/
structure FunctionAny where
  sigs : List Sig
  fn : Function

/-- Default construction (FunctionAny.h line 32): the defaulted
constructor value-initializes the variant, which default-constructs its
first alternative, the empty adapter for the first deduplicated
signature. -/
def FunctionAny.mkDefault (sigs : List Sig) : FunctionAny :=
  { sigs := sigs
    fn := { sig := (SIGS_UNIQUE sigs).headD { rt := Ty.void, args := [] }, target := none } }

/-- Tagged in-place construction (FunctionAny.h lines 60 to 67):
constructs Function<Sig> in place as the active alternative. `tOpt` is
the outcome of the adapter construction from the forwarded arguments
(`some` a target when it succeeds). The static asserts (Sig is a
signature, Sig is contained in SIGS_UNIQUE) are build-time
preconditions. -/
def FunctionAny.mkInPlace (sigs : List Sig) (s : Sig)
    (tOpt : Option (List Value → Store → Value × Store)) : FunctionAny :=
  { sigs := sigs, fn := { sig := s, target := tOpt } }

/-- Operator bool (FunctionAny.h lines 157 to 164): std::visit of the
adapter validity check on the active alternative. -/
def FunctionAny.toBool (fa : FunctionAny) : Bool :=
  fa.fn.toBool

/-- HoldsSig (FunctionAny.h lines 123 to 128): a fold of
std::holds_alternative over the candidate pack, true iff the active
alternative is the adapter of one of the candidate signatures. -/
def FunctionAny.HoldsSig (fa : FunctionAny) (cands : List Sig) : Bool :=
  cands.any (fun c => fa.fn.sig == c)

/-- Cross-set assignment, template operator= (FunctionAny.h lines 71 to
101). The guard is `*this != rhs`: FunctionAny declares no equality or
inequality operator, so overload resolution reaches the built-in
comparison through the non-explicit operator bool on both operands, and
the guard compares the two validity booleans. Only when they differ
does std::visit assign the active Function of rhs into this->func. The
static assert that SIGS_UNIQUE contains every signature of rhs is a
build-time precondition. -/
def FunctionAny.assignCross (dst src : FunctionAny) : FunctionAny :=
  if dst.toBool != src.toBool then { dst with fn := src.fn } else dst

/-- Same-type assignment. The user-declared assignment templates are
not copy or move assignment operators, so the implicitly-declared
defaulted operator= exists as well, and being a non-template exact
match it is selected whenever source and destination have the same
FunctionAny instantiation. It assigns the variant member `func`
unconditionally. -/
def FunctionAny.assignSame (dst src : FunctionAny) : FunctionAny :=
  { dst with fn := src.fn }

/-- Cross-set converting construction (FunctionAny.h lines 36 to 47):
default-construct, then apply the template operator= on the source. -/
def FunctionAny.mkFrom (sigs : List Sig) (src : FunctionAny) : FunctionAny :=
  (FunctionAny.mkDefault sigs).assignCross src

/-- InvokeFunction (FunctionAny.h lines 175 to 197): call the adapter;
then, mirroring the constexpr branches, a non-void non-reference return
becomes a member of the return type itself, a reference return becomes
a pointer member holding the address of the referenced object (the
location value the call returned), and a void return becomes the VOID
member. An empty adapter makes the call itself undefined (`none`). -/
def InvokeFunction (f : Function) (args : List Value) (σ : Store) : Option (RTVal × Store) :=
  match Function.call f args σ with
  | none => none
  | some (ret, σ1) =>
    if f.sig.rt ≠ Ty.void then
      if ¬ (Ty.isLRef f.sig.rt = true) then
        some (RTVal.mem f.sig.rt ret, σ1)
      else
        some (RTVal.mem (TO_RETURN_TYPE f.sig.rt) ret, σ1)
    else
      some (RTVal.VOIDv, σ1)

/-- Operator() (FunctionAny.h lines 139 to 154): std::visit of the call
lambda on the active alternative. If the argument types are convertible
to the parameter list of the active signature the adapter is invoked
through InvokeFunction, otherwise the result is the NO_CALL member and
the store is untouched. The static assert contains_convertible is a
build-time precondition. -/
def FunctionAny.opCall (conv : Ty → Ty → Bool) (fa : FunctionAny) (argTys : List Ty)
    (args : List Value) (σ : Store) : Option (RTVal × Store) :=
  if sig_convertible_args conv fa.fn.sig argTys then
    InvokeFunction fa.fn args σ
  else
    some (RTVal.NO_CALLv, σ)

/-- Invoke (FunctionAny.h lines 131 to 135): std::visit of the supplied
visitor on the result union freshly produced by operator(). -/
def FunctionAny.Invoke {β : Type} (conv : Ty → Ty → Bool) (fa : FunctionAny)
    (visitor : RTVal → β) (argTys : List Ty) (args : List Value) (σ : Store) :
    Option (β × Store) :=
  (fa.opCall conv argTys args σ).map (fun r => (visitor r.1, r.2))

/-- Operator() paired with the container state after the call: the
method is const and returns the result union by value, so the post-call
state is *this unchanged. -/
def FunctionAny.opCallSt (conv : Ty → Ty → Bool) (fa : FunctionAny) (argTys : List Ty)
    (args : List Value) (σ : Store) : Option (RTVal × Store) × FunctionAny :=
  (fa.opCall conv argTys args σ, fa)

/-- Invoke paired with the container state after the call; like
operator(), Invoke is const. -/
def FunctionAny.InvokeSt {β : Type} (conv : Ty → Ty → Bool) (fa : FunctionAny)
    (visitor : RTVal → β) (argTys : List Ty) (args : List Value) (σ : Store) :
    Option (β × Store) × FunctionAny :=
  (fa.Invoke conv visitor argTys args σ, fa)

/-- Structural equality as the convertibility relation, used by the
concrete witnesses. -/
def convEq : Ty → Ty → Bool := fun a b => a == b

/-- The all-zero store, used by the concrete witnesses. -/
def σ0 : Store := fun _ => 0

/-- The signature void(). -/
def sigVoid : Sig := { rt := Ty.void, args := [] }

/-- The signature int(int). -/
def sigI : Sig := { rt := Ty.int, args := [Ty.int] }

/-- The signature int(int,int). -/
def sigII : Sig := { rt := Ty.int, args := [Ty.int, Ty.int] }

/-- A concrete target for a void() adapter. -/
def tgtUnit : List Value → Store → Value × Store := fun _ σ => (Value.unitV, σ)

/-- A concrete target for an int-returning adapter. -/
def tgtInt : List Value → Store → Value × Store := fun _ σ => (Value.intV 7, σ)

/-- If the argument types do not fit the active signature, operator()
returns the NO_CALL member and leaves the store unchanged. -/
theorem opCall_mismatch (conv : Ty → Ty → Bool) (fa : FunctionAny) (argTys : List Ty)
    (args : List Value) (σ : Store)
    (h : sig_convertible_args conv fa.fn.sig argTys = false) :
    fa.opCall conv argTys args σ = some (RTVal.NO_CALLv, σ) := by
  simp [FunctionAny.opCall, h]

/-- If the argument types fit the active signature, operator() reduces
to InvokeFunction on the active adapter. -/
theorem opCall_match (conv : Ty → Ty → Bool) (fa : FunctionAny) (argTys : List Ty)
    (args : List Value) (σ : Store)
    (h : sig_convertible_args conv fa.fn.sig argTys = true) :
    fa.opCall conv argTys args σ = InvokeFunction fa.fn args σ := by
  simp [FunctionAny.opCall, h]

/-- Cross-set converting construction from a valid source copies the
active branch of the source. -/
theorem mkFrom_valid_source (sigs : List Sig) (src : FunctionAny)
    (hv : src.toBool = true) :
    (FunctionAny.mkFrom sigs src).fn = src.fn := by
  simp [FunctionAny.mkFrom, FunctionAny.assignCross, FunctionAny.mkDefault,
        FunctionAny.toBool, Function.toBool] at hv ⊢
  simp [hv]

/-- Claim C1: when the argument shape is accepted at build time but the
argument types are not an arity-exact, positionally convertible target
for the active signature, operator() performs no invocation, leaves the
store unchanged and returns the NO_CALL member of the result union. -/
theorem C1_active_mismatch_yields_no_call (conv : Ty → Ty → Bool) (fa : FunctionAny)
    (argTys : List Ty) (args : List Value) (σ : Store)
    (hacc : contains_convertible conv (ARGS_UNIQUE fa.sigs) argTys = true)
    (hmis : sig_convertible_args conv fa.fn.sig argTys = false) :
    fa.opCall conv argTys args σ = some (RTVal.NO_CALLv, σ) :=
  opCall_mismatch conv fa argTys args σ hmis

/-- Container used by the C1 witness: active signature int(int,int),
valid, declared set also containing void() so the empty argument shape
is accepted at build time. -/
def faC1 : FunctionAny :=
  { sigs := [sigII, sigVoid], fn := { sig := sigII, target := some tgtInt } }

/-- Witness for C1: the concrete container with active signature
int(int,int) invoked with zero arguments yields NO_CALL. -/
theorem C1_active_mismatch_yields_no_call_witness :
    contains_convertible convEq (ARGS_UNIQUE faC1.sigs) [] = true ∧
    sig_convertible_args convEq faC1.fn.sig [] = false ∧
    FunctionAny.opCall convEq faC1 [] [] σ0 = some (RTVal.NO_CALLv, σ0) :=
  ⟨by decide, by decide,
    C1_active_mismatch_yields_no_call convEq faC1 [] [] σ0 (by decide) (by decide)⟩

/-- Destination of the C2 failing input: declared over
{void(), int(int), int(int,int)}, validly holding void(). -/
def dstC2 : FunctionAny :=
  { sigs := [sigVoid, sigI, sigII], fn := { sig := sigVoid, target := some tgtUnit } }

/-- Source of the C2 failing input: declared over {void(), int(int)}, a
subset of the destination set, validly holding int(int). -/
def srcC2 : FunctionAny :=
  { sigs := [sigVoid, sigI], fn := { sig := sigI, target := some tgtInt } }

/-- Claim C2 evaluated at the failing input: the source set is a subset
of the destination set and both containers are valid, yet the cross-set
assignment leaves the destination holding its previous branch, because
the guard of operator= compares only the two validity booleans. -/
theorem C2_valid_to_valid_cross_assignment_skipped :
    is_subset (SIGS_UNIQUE srcC2.sigs) (SIGS_UNIQUE dstC2.sigs) = true ∧
    dstC2.toBool = true ∧ srcC2.toBool = true ∧
    srcC2.fn.sig ≠ dstC2.fn.sig ∧
    (dstC2.assignCross srcC2).fn.sig = sigVoid ∧
    (dstC2.assignCross srcC2).fn.sig ≠ srcC2.fn.sig :=
  ⟨by decide, rfl, rfl, by decide, rfl, by decide⟩

/-- Claim C3 counterexample: for the container declared over {void()}
alone, the empty argument shape is accepted at build time, yet invoking
the default-constructed (empty) container with it does not produce the
NO_CALL member: the arguments fit the active first signature, so the
empty adapter itself is invoked, which the adapter contract leaves
undefined (modelled as none). -/
theorem C3_empty_matching_call_not_no_call :
    contains_convertible convEq (ARGS_UNIQUE [sigVoid]) [] = true ∧
    FunctionAny.opCall convEq (FunctionAny.mkDefault [sigVoid]) [] [] σ0 = none :=
  ⟨by decide, rfl⟩

/-- Claim C3 as amended: invoking a default-constructed container with
an accepted argument shape yields the NO_CALL member, with the store
unchanged and without invoking the empty adapter, whenever the argument
types are not convertible to the parameter list of the first signature
of the deduplicated set (the branch a default-constructed container
holds). -/
theorem C3_default_mismatch_yields_no_call (conv : Ty → Ty → Bool) (sigs : List Sig)
    (s0 : Sig) (rest : List Sig) (argTys : List Ty) (args : List Value) (σ : Store)
    (hhead : SIGS_UNIQUE sigs = s0 :: rest)
    (hacc : contains_convertible conv (ARGS_UNIQUE sigs) argTys = true)
    (hmis : sig_convertible_args conv s0 argTys = false) :
    FunctionAny.opCall conv (FunctionAny.mkDefault sigs) argTys args σ =
      some (RTVal.NO_CALLv, σ) := by
  apply opCall_mismatch
  simp [FunctionAny.mkDefault, hhead]
  exact hmis

/-- Witness for the amended C3: the default-constructed container over
{int(int,int), void()} invoked with zero arguments yields NO_CALL. -/
theorem C3_default_mismatch_yields_no_call_witness :
    SIGS_UNIQUE [sigII, sigVoid] = sigII :: [sigVoid] ∧
    contains_convertible convEq (ARGS_UNIQUE [sigII, sigVoid]) [] = true ∧
    sig_convertible_args convEq sigII [] = false ∧
    FunctionAny.opCall convEq (FunctionAny.mkDefault [sigII, sigVoid]) [] [] σ0 =
      some (RTVal.NO_CALLv, σ0) :=
  ⟨by decide, by decide, by decide,
    C3_default_mismatch_yields_no_call convEq [sigII, sigVoid] sigII [sigVoid] [] [] σ0
      (by decide) (by decide) (by decide)⟩

/-- Claim C4: when the active signature returns void, its parameter
list accepts the arguments and the adapter holds a target, operator()
invokes the target (its store effect happens) and returns the result
union holding the VOID member. -/
theorem C4_void_normalization (conv : Ty → Ty → Bool) (fa : FunctionAny)
    (argTys : List Ty) (args : List Value) (σ : Store)
    (tgt : List Value → Store → Value × Store)
    (hrt : fa.fn.sig.rt = Ty.void)
    (hconv : sig_convertible_args conv fa.fn.sig argTys = true)
    (htgt : fa.fn.target = some tgt) :
    fa.opCall conv argTys args σ = some (RTVal.VOIDv, (tgt args σ).2) := by
  rw [opCall_match conv fa argTys args σ hconv]
  unfold InvokeFunction Function.call
  rw [htgt]
  simp [hrt]

/-- Container used by the C4 witness: active signature void(), valid. -/
def faC4 : FunctionAny :=
  { sigs := [sigVoid, sigI], fn := { sig := sigVoid, target := some tgtUnit } }

/-- Witness for C4: invoking the concrete void() container with zero
arguments yields the VOID member. -/
theorem C4_void_normalization_witness :
    faC4.fn.sig.rt = Ty.void ∧
    sig_convertible_args convEq faC4.fn.sig [] = true ∧
    faC4.fn.target = some tgtUnit ∧
    FunctionAny.opCall convEq faC4 [] [] σ0 = some (RTVal.VOIDv, (tgtUnit [] σ0).2) :=
  ⟨rfl, by decide, rfl,
    C4_void_normalization convEq faC4 [] [] σ0 tgtUnit rfl (by decide) rfl⟩

/-- Claim C5: when the active signature returns an lvalue reference to
t, its parameter list accepts the arguments and the held target returns
a reference to location ℓ, operator() returns the result union holding
the pointer member for that very location (no copy), and writing an
integer through that location is observable when reading it back. -/
theorem C5_reference_normalization (conv : Ty → Ty → Bool) (fa : FunctionAny)
    (argTys : List Ty) (args : List Value) (σ σ1 : Store) (t : Ty) (ℓ : Loc)
    (tgt : List Value → Store → Value × Store)
    (hrt : fa.fn.sig.rt = Ty.ref t)
    (hconv : sig_convertible_args conv fa.fn.sig argTys = true)
    (htgt : fa.fn.target = some tgt)
    (hret : tgt args σ = (Value.locV ℓ, σ1)) :
    fa.opCall conv argTys args σ = some (RTVal.mem (Ty.ptr t) (Value.locV ℓ), σ1) ∧
    ∀ z : Int, Store.write σ1 ℓ z ℓ = z := by
  constructor
  · rw [opCall_match conv fa argTys args σ hconv]
    unfold InvokeFunction Function.call
    rw [htgt]
    simp [hret, hrt, Ty.isLRef, TO_RETURN_TYPE]
  · intro z
    simp [Store.write]

/-- A concrete target returning a reference to location 3. -/
def tgtLoc : List Value → Store → Value × Store := fun _ σ => (Value.locV 3, σ)

/-- Container used by the C5 witness: active signature int&(), valid,
returning a reference to location 3. -/
def faC5 : FunctionAny :=
  { sigs := [{ rt := Ty.ref Ty.int, args := [] }],
    fn := { sig := { rt := Ty.ref Ty.int, args := [] }, target := some tgtLoc } }

/-- Witness for C5: invoking the concrete reference-returning container
yields the pointer member for location 3. -/
theorem C5_reference_normalization_witness :
    faC5.fn.sig.rt = Ty.ref Ty.int ∧
    sig_convertible_args convEq faC5.fn.sig [] = true ∧
    faC5.fn.target = some tgtLoc ∧
    tgtLoc [] σ0 = (Value.locV 3, σ0) ∧
    (FunctionAny.opCall convEq faC5 [] [] σ0 =
        some (RTVal.mem (Ty.ptr Ty.int) (Value.locV 3), σ0) ∧
      ∀ z : Int, Store.write σ0 3 z 3 = z) :=
  ⟨rfl, by decide, rfl, rfl,
    C5_reference_normalization convEq faC5 [] [] σ0 σ0 Ty.int 3 tgtLoc rfl (by decide) rfl rfl⟩

/-- Source of the C6 failing input: declared over {void(), int(int)},
validly holding void(). -/
def xC6 : FunctionAny :=
  { sigs := [sigVoid, sigI], fn := { sig := sigVoid, target := some tgtUnit } }

/-- Destination of the C6 failing input: declared over
{void(), int(int), int(int,int)}, validly holding int(int,int). -/
def yC6 : FunctionAny :=
  { sigs := [sigVoid, sigI, sigII], fn := { sig := sigII, target := some tgtInt } }

/-- Claim C6 evaluated at the failing input: the set of X is a subset
of the set of Y and X validly holds void(), yet assigning X into a Y
that validly holds int(int,int) leaves Y unchanged, so HoldsSig for
void() is false afterwards: the guard of operator= compares only the
two validity booleans, which here agree. -/
theorem C6_valid_destination_assignment_not_converted :
    is_subset (SIGS_UNIQUE xC6.sigs) (SIGS_UNIQUE yC6.sigs) = true ∧
    xC6.toBool = true ∧ yC6.toBool = true ∧ xC6.fn.sig = sigVoid ∧
    (yC6.assignCross xC6).HoldsSig [sigVoid] = false ∧
    (yC6.assignCross xC6).fn.sig = sigII :=
  ⟨by decide, rfl, rfl, rfl, by decide, rfl⟩

/-- Claim C7: assigning a container to itself, or from a container
already denoting the same active callable, is a no-op: both the guarded
cross-set operator= and the defaulted same-type operator= leave the
destination state unchanged. -/
theorem C7_equal_state_assignment_is_noop (dst src : FunctionAny)
    (h : dst.fn = src.fn) :
    dst.assignCross src = dst ∧ dst.assignSame src = dst := by
  constructor
  · simp [FunctionAny.assignCross, FunctionAny.toBool, h]
  · show FunctionAny.mk dst.sigs src.fn = dst
    rw [← h]

/-- Container used by the C7 witness. -/
def faC7 : FunctionAny :=
  { sigs := [sigVoid, sigI], fn := { sig := sigI, target := some tgtInt } }

/-- Witness for C7: self-assignment of a concrete valid container
leaves it unchanged under both assignment paths. -/
theorem C7_equal_state_assignment_is_noop_witness :
    faC7.fn = faC7.fn ∧
    (faC7.assignCross faC7 = faC7 ∧ faC7.assignSame faC7 = faC7) :=
  ⟨rfl, C7_equal_state_assignment_is_noop faC7 faC7 rfl⟩

/-- Claim C8: constructing a container from an explicit signature tag
in the declared set with a successful adapter construction yields a
container that holds that signature and is valid. -/
theorem C8_tagged_construction_holds_sig_and_valid (sigs : List Sig) (s : Sig)
    (tgt : List Value → Store → Value × Store)
    (hmem : (SIGS_UNIQUE sigs).contains s = true) :
    (FunctionAny.mkInPlace sigs s (some tgt)).HoldsSig [s] = true ∧
    (FunctionAny.mkInPlace sigs s (some tgt)).toBool = true := by
  constructor
  · simp [FunctionAny.HoldsSig, FunctionAny.mkInPlace]
  · rfl

/-- Witness for C8: in-place construction tagged with int(int) over the
declared set {void(), int(int)} holds int(int) and is valid. -/
theorem C8_tagged_construction_holds_sig_and_valid_witness :
    (SIGS_UNIQUE [sigVoid, sigI]).contains sigI = true ∧
    ((FunctionAny.mkInPlace [sigVoid, sigI] sigI (some tgtInt)).HoldsSig [sigI] = true ∧
      (FunctionAny.mkInPlace [sigVoid, sigI] sigI (some tgtInt)).toBool = true) :=
  ⟨by decide, C8_tagged_construction_holds_sig_and_valid [sigVoid, sigI] sigI tgtInt (by decide)⟩

/-- Claim C9: invocation does not mutate the container: after any call
through operator() or Invoke the container state (declared set, active
branch and stored adapter) is exactly the state before the call; the
result union is produced as a separate value and no field of the
container retains it. -/
theorem C9_invocation_preserves_container {β : Type} (conv : Ty → Ty → Bool)
    (fa : FunctionAny) (visitor : RTVal → β) (argTys : List Ty) (args : List Value)
    (σ : Store) :
    (fa.opCallSt conv argTys args σ).2 = fa ∧
    (fa.InvokeSt conv visitor argTys args σ).2 = fa :=
  ⟨rfl, rfl⟩

/-- Claim C10: a default-constructed container is never branch-less:
its variant holds the empty adapter for the first signature of the
deduplicated set, so HoldsSig on that first signature is true while the
boolean validity check is false. -/
theorem C10_default_holds_first_sig_and_invalid (sigs : List Sig) (s0 : Sig)
    (rest : List Sig) (hhead : SIGS_UNIQUE sigs = s0 :: rest) :
    (FunctionAny.mkDefault sigs).HoldsSig [s0] = true ∧
    (FunctionAny.mkDefault sigs).toBool = false := by
  constructor
  · simp [FunctionAny.HoldsSig, FunctionAny.mkDefault, hhead]
  · rfl

/-- Witness for C10: the default-constructed container over the list
{void(), int(int), void()} (with a duplicate) actively holds the first
deduplicated signature void() and is invalid. -/
theorem C10_default_holds_first_sig_and_invalid_witness :
    SIGS_UNIQUE [sigVoid, sigI, sigVoid] = sigVoid :: [sigI] ∧
    ((FunctionAny.mkDefault [sigVoid, sigI, sigVoid]).HoldsSig [sigVoid] = true ∧
      (FunctionAny.mkDefault [sigVoid, sigI, sigVoid]).toBool = false) :=
  ⟨by decide,
    C10_default_holds_first_sig_and_invalid [sigVoid, sigI, sigVoid] sigVoid [sigI] (by decide)⟩

end FA
